import Mathlib

/-!
Verification of the payment / batch-checkout core of the school-catering
ordering portal.

The embedding below models the TypeScript/Deno sources shallowly:

* JS numbers are modelled as rationals (`ℚ`); `Math.round` becomes `jsRound`.
* JS `undefined`-able values are `Option`s; JS truthiness of strings
  (`""` is falsy) is `jsTruthyStr`; `x || d` on strings is `jsOrStr`.
* Database and gateway side effects are modelled as explicit action traces;
  success or failure of each external call is an environment flag.

Embedded sources:
* `supabase/functions/create-payment/index.ts` — the server-side gateway
  transaction function (`serve`, `buildPayload`, `finalItemDetails`, …).
* `useBatchPayment.ts` — `processBatchPayment`, the batch payment aggregator.
* `useOrders.ts` — `retryPayment`, the client retry path.
* `useCartOperations.ts` — `handleCheckout`, the checkout aggregator.
* `CashPaymentV2.tsx` — `handlePayment`, cashier cash settlement.
* `CashierPaymentV2` page — `processPayment`, the second cash settlement path.
-/

/-- JS truthiness for an optional string: `undefined`/`null` and `""` are
falsy, every other string is truthy. -/
def jsTruthyStr : Option String → Bool
  | some s => s ≠ ""
  | none => false

/-- JS `x || d` for strings: the fallback `d` is used when `x` is absent or
empty (falsy). -/
def jsOrStr (x : Option String) (d : String) : String :=
  match x with
  | some s => if s = "" then d else s
  | none => d

/-- `Math.round` on a (finite) JS number: halves round toward positive
infinity, i.e. `Math.round x = ⌊x + 1/2⌋`. -/
def jsRound (x : ℚ) : ℤ := ⌊x + 1 / 2⌋

theorem jsRound_intCast (z : ℤ) : jsRound (z : ℚ) = z := by
  rw [jsRound, Int.floor_int_add]
  norm_num

/-! ## Gateway transaction function (`create-payment/index.ts`) -/

/-- A raw entry of the request's `itemDetails` array: every field may be
absent (or, for strings, empty) in the incoming JSON. -/
structure RawItem where
  id : Option String
  price : Option ℚ
  quantity : Option ℚ
  name : Option String
deriving DecidableEq, Repr

/-- A normalized line item as sent to the gateway: integer price, defaulted
id/name, as produced by the `itemDetails.map` in the handler. -/
structure GatewayItem where
  id : String
  price : ℤ
  quantity : ℚ
  name : String
deriving DecidableEq, Repr

/-- `transaction_details` of the gateway payload. -/
structure TransactionDetails where
  order_id : String
  gross_amount : ℤ
deriving DecidableEq, Repr

/-- The gateway payload built by the handler (`midtransPayload`).
`customer_details` and `credit_card` are omitted: no claim concerns them. -/
structure MidtransPayload where
  transaction_details : TransactionDetails
  item_details : List GatewayItem
deriving DecidableEq, Repr

/-- `item.price || 0`: absent price defaults to `0` (and `0` is its own
fallback). -/
def effPrice (it : RawItem) : ℚ := it.price.getD 0

/-- `item.quantity || 1`: absent and zero quantities default to `1`. -/
def effQuantity (it : RawItem) : ℚ :=
  match it.quantity with
  | some q => if q = 0 then 1 else q
  | none => 1

/-- `item.id || 'item-N'` with 1-based index `i+1`. -/
def normId (i : ℕ) (it : RawItem) : String :=
  jsOrStr it.id ("item-" ++ toString (i + 1))

/-- The `truncatedName` computation: names longer than 45 characters are
truncated to 45 plus `"..."`; falsy names default to `Item N` (1-based). -/
def normName (i : ℕ) (it : RawItem) : String :=
  match it.name with
  | some s =>
      if s = "" then "Item " ++ toString (i + 1)
      else if s.length > 45 then s.take 45 ++ "..." else s
  | none => "Item " ++ toString (i + 1)

/-- One step of the handler's `itemDetails.map`: default the id and name,
round the price, default the quantity. -/
def normalizeItem (i : ℕ) (it : RawItem) : GatewayItem :=
  { id := normId i it
    price := jsRound (effPrice it)
    quantity := effQuantity it
    name := normName i it }

/-- The handler's `itemDetails.map` with its running index. -/
def normalizeItems (i : ℕ) : List RawItem → List GatewayItem
  | [] => []
  | it :: rest => normalizeItem i it :: normalizeItems (i + 1) rest

/-- `calculatedTotal`: the `reduce` summing `price * quantity` over a list of
normalized items. -/
def itemsTotal (items : List GatewayItem) : ℚ :=
  (items.map (fun it => (it.price : ℚ) * it.quantity)).sum

/-- The single synthetic summary line item built by the handler when the
itemization is absent or does not reconcile. -/
def summaryItem (orderId : String) (amount : ℚ) (batchOrderIds : List String) :
    GatewayItem :=
  { id := orderId
    price := jsRound amount
    quantity := 1
    name :=
      if batchOrderIds.length > 1 then
        "Batch Payment (" ++ toString batchOrderIds.length ++ " orders)"
      else "Payment" }

/-- `finalItemDetails`: normalize a supplied non-empty itemization and keep it
only when its total equals the raw `amount`; otherwise (or when no
itemization was supplied) fall back to the single summary item. -/
def finalItemDetails (orderId : String) (amount : ℚ)
    (itemDetails : List RawItem) (batchOrderIds : List String) :
    List GatewayItem :=
  if itemDetails = [] then [summaryItem orderId amount batchOrderIds]
  else
    let norm := normalizeItems 0 itemDetails
    if itemsTotal norm ≠ amount then [summaryItem orderId amount batchOrderIds]
    else norm

/-- `midtransPayload`: the payload the handler sends to the gateway. -/
def buildPayload (orderId : String) (amount : ℚ)
    (itemDetails : List RawItem) (batchOrderIds : List String) :
    MidtransPayload :=
  { transaction_details := { order_id := orderId, gross_amount := jsRound amount }
    item_details := finalItemDetails orderId amount itemDetails batchOrderIds }

/-- The parsed body of a `create-payment` request. `customerDetails` is
omitted (no claim concerns it); an absent `itemDetails`/`batchOrderIds`
array is modelled as `[]`, which the handler treats identically. -/
structure CreatePaymentRequest where
  orderId : Option String
  amount : Option ℚ
  itemDetails : List RawItem
  batchOrderIds : List String
deriving DecidableEq, Repr

/-- A row of the `batch_orders` table. -/
structure BatchRow where
  batch_id : String
  order_id : String
deriving DecidableEq, Repr

/-- External side effects of the handler, in execution order. -/
inductive ServeAction where
  | insertBatch (rows : List BatchRow)
  | callGateway (payload : MidtransPayload)
deriving DecidableEq, Repr

/-- The handler's HTTP response, reduced to its payment-relevant content. -/
inductive ServeResponse where
  | success (snap_token : String)
  | failure (error : String)
deriving DecidableEq, Repr

/-- Environment of one `create-payment` invocation: which configuration is
present and how each external call turns out. -/
structure ServeEnv where
  serverKey : Bool
  supabaseConfig : Bool
  batchInsertOk : Bool
  gatewayToken : Option String
deriving Repr

/-- The `create-payment` handler: validation, optional batch-mapping insert,
payload construction, gateway call. Returns the attempted side effects in
order together with the response. -/
def serve (env : ServeEnv) (req : CreatePaymentRequest) :
    List ServeAction × ServeResponse :=
  match req.orderId with
  | none => ([], .failure "Order ID is required")
  | some oid =>
    if oid = "" then ([], .failure "Order ID is required")
    else
      match req.amount with
      | none => ([], .failure "Valid amount is required")
      | some a =>
        if a ≤ 0 then ([], .failure "Valid amount is required")
        else if ¬ env.serverKey then
          ([], .failure "Midtrans server key not configured")
        else
          -- batch mapping step (runs before any gateway call)
          let rows := req.batchOrderIds.map
            (fun originalOrderId =>
              ({ batch_id := oid, order_id := originalOrderId } : BatchRow))
          let step : List ServeAction × Option String :=
            if req.batchOrderIds ≠ [] then
              if env.supabaseConfig then
                if env.batchInsertOk then ([.insertBatch rows], none)
                else
                  ([.insertBatch rows],
                   some "Database error: Failed to save batch mapping")
              else ([], none)  -- configuration missing: logged, not fatal
            else ([], none)
          match step with
          | (acts, some e) => (acts, .failure e)
          | (acts, none) =>
            let payload := buildPayload oid a req.itemDetails req.batchOrderIds
            match env.gatewayToken with
            | some t => (acts ++ [.callGateway payload], .success t)
            | none => (acts ++ [.callGateway payload], .failure "Midtrans API error")

/-! ## Batch payment aggregator (`useBatchPayment.ts`) and orders data -/

/-- An `order_line_items` row as selected by the hooks (fields the payment
core reads). `menuName` is `menu_items?.name`. -/
structure BatchLineItem where
  id : String
  unit_price : ℚ
  quantity : ℚ
  menuName : Option String
deriving DecidableEq, Repr

/-- An `orders` row as seen by the client hooks. -/
structure Order where
  id : String
  payment_status : String
  total_amount : ℚ
  child_name : String
  snap_token : Option String
  midtrans_order_id : Option String
  order_line_items : List BatchLineItem
deriving DecidableEq, Repr

/-- The combined `itemDetails` the batch aggregator builds: one raw item per
line item of each pending order. -/
def batchItemDetails (pending : List Order) : List RawItem :=
  (pending.map (fun o =>
    o.order_line_items.map (fun it =>
      ({ id := some (o.id ++ "-" ++ it.id)
         price := some it.unit_price
         quantity := some it.quantity
         name := some ((jsOrStr it.menuName "Item") ++ " - " ++ o.child_name) }
        : RawItem)))).flatten

/-- One `orders` table update attempted by the batch fan-out loop. -/
structure OrderWrite where
  order_id : String
  snap_token : String
  midtrans_order_id : String
deriving DecidableEq, Repr

/-- The fan-out loop of `processBatchPayment`: one update per pending order,
all with the identical `(snap_token, midtrans_order_id)` pair. A failed
update is only logged, so the loop continues regardless; each entry records
whether its own write succeeded. -/
def updateLoop (writeOk : String → Bool) (token batchId : String) :
    List Order → List (OrderWrite × Bool)
  | [] => []
  | o :: rest =>
      ({ order_id := o.id, snap_token := token, midtrans_order_id := batchId },
       writeOk o.id) :: updateLoop writeOk token batchId rest

/-- The updates of a fan-out run that actually reached the store. -/
def appliedWrites (l : List (OrderWrite × Bool)) : List OrderWrite :=
  (l.filter (fun e => e.2)).map (fun e => e.1)

/-- Outcome of one `processBatchPayment` run, keyed to the toast shown. -/
inductive BatchOutcome where
  | emptySelectionError   -- destructive toast: nothing selected
  | nothingToPayInfo      -- informational toast: no pending order
  | paymentFailed         -- error path (no token / widget missing)
  | launched (token : String)
deriving DecidableEq, Repr

/-- Environment for a batch run: the gateway outcome (`none` models an
invoke error, a body-level error or a missing token), the per-order write
oracle, and whether the payment widget script is loaded. -/
structure BatchEnv where
  gatewayToken : Option String
  writeOk : String → Bool
  snapLoaded : Bool

/-- `processBatchPayment`: filter the selection to pending orders, call
`create-payment` once over their summed amounts, then fan the returned token
out to every batched order. Returns the outcome, the gateway-function
request bodies sent, and the fan-out writes attempted. -/
def processBatchPayment (env : BatchEnv) (batchOrderId : String)
    (orders : List Order) :
    BatchOutcome × List CreatePaymentRequest × List (OrderWrite × Bool) :=
  if orders = [] then (.emptySelectionError, [], [])
  else
    let pendingOrders := orders.filter (fun o => o.payment_status = "pending")
    if pendingOrders = [] then (.nothingToPayInfo, [], [])
    else
      let totalAmount := (pendingOrders.map (fun o => o.total_amount)).sum
      let body : CreatePaymentRequest :=
        { orderId := some batchOrderId
          amount := some totalAmount
          itemDetails := batchItemDetails pendingOrders
          batchOrderIds := pendingOrders.map (fun o => o.id) }
      match env.gatewayToken with
      | none => (.paymentFailed, [body], [])
      | some t =>
        let writes := updateLoop env.writeOk t batchOrderId pendingOrders
        if env.snapLoaded then (.launched t, [body], writes)
        else (.paymentFailed, [body], writes)

/-! ## Retry payment path (`useOrders.ts`) -/

/-- Side effects of one `retryPayment` run, in execution order. -/
inductive RetryAction where
  | openWidget (token : String)
  | persistMidtransId (orderRowId mid : String)
  | gatewayCall (req : CreatePaymentRequest)
  | persistSnapToken (orderRowId token : String)
deriving DecidableEq, Repr

/-- Result of one `retryPayment` run. -/
inductive RetryResult where
  | widgetOpened (token : String)
  | failed (msg : String)
deriving DecidableEq, Repr

/-- Environment for a retry run: the freshly generated gateway order id,
whether persisting it succeeds (a failure there throws), the gateway
outcome, and whether the widget script is loaded. Failure to persist the
returned token is only logged, so it needs no flag. -/
structure RetryEnv where
  freshOrderId : String
  persistMidtransOk : Bool
  gatewayToken : Option String
  snapLoaded : Bool
deriving Repr

/-- The `itemDetails` the retry path builds from an order's line items. -/
def retryItemDetails (o : Order) : List RawItem :=
  o.order_line_items.map (fun it =>
    ({ id := some it.id
       price := some it.unit_price
       quantity := some it.quantity
       name := some (jsOrStr it.menuName "Unknown Item") } : RawItem))

/-- `retryPayment`: reuse a truthy cached `snap_token` directly; otherwise
ensure a `midtrans_order_id` exists (generating and persisting one if
absent), call `create-payment` for a fresh token, persist and open it. -/
def retryPayment (env : RetryEnv) (o : Order) :
    List RetryAction × RetryResult :=
  if jsTruthyStr o.snap_token then
    let t := o.snap_token.getD ""
    if env.snapLoaded then ([.openWidget t], .widgetOpened t)
    else ([], .failed "Midtrans Snap belum loaded")
  else
    let step : List RetryAction × Option String :=
      if jsTruthyStr o.midtrans_order_id then
        ([], some (o.midtrans_order_id.getD ""))
      else if env.persistMidtransOk then
        ([.persistMidtransId o.id env.freshOrderId], some env.freshOrderId)
      else ([.persistMidtransId o.id env.freshOrderId], none)
    match step with
    | (acts, none) => (acts, .failed "update error")
    | (acts, some orderId) =>
      let req : CreatePaymentRequest :=
        { orderId := some orderId
          amount := some o.total_amount
          itemDetails := retryItemDetails o
          batchOrderIds := [] }
      match env.gatewayToken with
      | none => (acts ++ [.gatewayCall req], .failed "Snap token tidak diterima")
      | some t =>
        let acts := acts ++ [.gatewayCall req, .persistSnapToken o.id t]
        if env.snapLoaded then (acts ++ [.openWidget t], .widgetOpened t)
        else (acts, .failed "Midtrans Snap belum loaded")

/-- Recognizer for gateway calls in a retry trace. -/
def isGatewayCall : RetryAction → Bool
  | .gatewayCall _ => true
  | _ => false

/-! ## Checkout aggregator (`useCartOperations.ts`) -/

/-- A cart item (fields the checkout path reads; `types/cart.ts`). -/
structure CartItem where
  id : String
  name : String
  price : ℚ
  quantity : ℚ
  menu_item_id : String
  child_id : Option String
  child_name : Option String
  child_class : Option String
deriving DecidableEq, Repr

/-- A `children` table row. -/
structure Child where
  id : String
  name : String
  class_name : String
deriving DecidableEq, Repr

/-- An `order_line_items` row as inserted by checkout (dates and notes,
which come from the wall clock, are omitted). -/
structure LineItemRow where
  order_id : String
  child_id : String
  child_name : String
  child_class : String
  menu_item_id : String
  quantity : ℚ
  unit_price : ℚ
deriving DecidableEq, Repr

/-- Side effects of one `handleCheckout` run, in execution order. -/
inductive CheckoutAction where
  | insertOrder (orderRowId orderNumber : String) (total : ℚ)
  | insertLineItems (rows : List LineItemRow)
  | deleteOrder (orderRowId : String)
  | updateMidtransId (orderRowId mid : String)
  | gatewayCall (req : CreatePaymentRequest)
  | updateSnapToken (orderRowId token : String)
deriving DecidableEq, Repr

/-- Result of a `handleCheckout` run. `failed` is a thrown (and re-thrown)
error; `paymentErrorReturn` is the early `return` after an invoke error;
`completed` returns the created order row, with the token that was opened
in the widget when the script was loaded. -/
inductive CheckoutResult where
  | failed (msg : String)
  | paymentErrorReturn
  | completed (orderRowId : String) (openedToken : Option String)
deriving DecidableEq, Repr

/-- Environment for a checkout run: generated ids and the outcome of each
external call. A failing `updateMidtransId` or `updateSnapToken` write is
not fatal in the source, so neither needs a flag. -/
structure CheckoutEnv where
  userPresent : Bool
  orderRowId : String
  orderNumber : String
  midtransOrderId : String
  orderInsertOk : Bool
  lineItemsInsertOk : Bool
  gatewayInvokeError : Bool
  gatewayToken : Option String
  snapLoaded : Bool
deriving Repr

/-- `selectedChildId || cartItems[0]?.child_id`, the id checkout bills to. -/
def childIdToUse (selectedChildId : String) (cartItems : List CartItem) :
    Option String :=
  if selectedChildId ≠ "" then some selectedChildId
  else cartItems.head?.bind (fun it => it.child_id)

/-- The child-record resolution: look up the id in the loaded `children`
list, falling back to the cart item carrying that child id. -/
def resolveChild (cid : String) (children : List Child)
    (cartItems : List CartItem) : Option Child :=
  match children.find? (fun c => c.id = cid) with
  | some c => some c
  | none =>
    match cartItems.find? (fun it => it.child_id = some cid) with
    | some it =>
        some { id := cid
               name := jsOrStr it.child_name "Unknown"
               class_name := (it.child_class).getD "" }
    | none => none

/-- The line-item rows checkout inserts for the created order. -/
def checkoutLineItems (orderRowId cid : String) (c : Child)
    (cartItems : List CartItem) : List LineItemRow :=
  cartItems.map (fun it =>
    { order_id := orderRowId
      child_id := (it.child_id).getD cid
      child_name := jsOrStr it.child_name c.name
      child_class := jsOrStr it.child_class c.class_name
      menu_item_id := it.menu_item_id
      quantity := it.quantity
      unit_price := it.price })

/-- `handleCheckout`: validate, insert the order row, insert its line items
(deleting the order again if that fails), persist a gateway order id, call
`create-payment` and open the returned token. -/
def handleCheckout (env : CheckoutEnv) (selectedChildId : String)
    (children : List Child) (cartItems : List CartItem) :
    List CheckoutAction × CheckoutResult :=
  if ¬ env.userPresent then ([], .failed "Silakan login terlebih dahulu")
  else if cartItems = [] then ([], .failed "Keranjang belanja kosong")
  else
    match childIdToUse selectedChildId cartItems with
    | none => ([], .failed "Data anak tidak ditemukan")
    | some cid =>
      match resolveChild cid children cartItems with
      | none => ([], .failed "Data anak yang dipilih tidak ditemukan")
      | some c =>
        let totalAmount :=
          (cartItems.map (fun it => it.price * it.quantity)).sum
        let a1 := CheckoutAction.insertOrder env.orderRowId env.orderNumber
          totalAmount
        if ¬ env.orderInsertOk then ([a1], .failed "Gagal membuat pesanan utama")
        else
          let rows := checkoutLineItems env.orderRowId cid c cartItems
          let a2 := CheckoutAction.insertLineItems rows
          if ¬ env.lineItemsInsertOk then
            ([a1, a2, .deleteOrder env.orderRowId],
             .failed "Gagal menyimpan detail pesanan")
          else
            let a3 := CheckoutAction.updateMidtransId env.orderRowId
              env.midtransOrderId
            let req : CreatePaymentRequest :=
              { orderId := some env.midtransOrderId
                amount := some totalAmount
                itemDetails := cartItems.map (fun it =>
                  ({ id := some it.menu_item_id
                     price := some it.price
                     quantity := some it.quantity
                     name := some (it.name ++ " - " ++ c.name) } : RawItem))
                batchOrderIds := [] }
            let acts := [a1, a2, a3, .gatewayCall req]
            if env.gatewayInvokeError then (acts, .paymentErrorReturn)
            else
              match env.gatewayToken with
              | none => (acts, .failed "Token pembayaran tidak diterima")
              | some t =>
                let acts := acts ++ [.updateSnapToken env.orderRowId t]
                if env.snapLoaded then
                  (acts, .completed env.orderRowId (some t))
                else (acts, .completed env.orderRowId none)

/-- The ids of the orders present in the store after replaying a checkout
trace (inserts add a row, the compensating delete removes it). -/
def ordersAfter (trace : List CheckoutAction) : List String :=
  trace.foldl (fun st a =>
    match a with
    | .insertOrder rid _ _ => st ++ [rid]
    | .deleteOrder rid => st.filter (fun x => x ≠ rid)
    | _ => st) []

/-! ## Cash settlement (`CashPaymentV2.tsx` and the `CashierPaymentV2` page) -/

/-- An order as the cashier screens see it. -/
structure CashOrder where
  id : String
  total_amount : ℚ
deriving DecidableEq, Repr

/-- Side effects of `handlePayment` (`CashPaymentV2.tsx`), in order: the
order-status update runs first, then the `payments` insert. -/
inductive CashAction where
  | updateOrderStatus (orderId : String) (payment_status status : String)
  | insertPayment (orderId : String) (amount : ℚ)
      (payment_method status transaction_id : String)
deriving DecidableEq, Repr

/-- Result of either cash-settlement handler. -/
inductive CashResult where
  | rejected    -- local validation toast, nothing submitted
  | storeError  -- a write failed mid-way
  | succeeded
deriving DecidableEq, Repr

/-- Environment for `handlePayment`: whether each write succeeds, plus the
generated transaction id. -/
structure CashEnv where
  transactionId : String
  orderUpdateOk : Bool
  paymentInsertOk : Bool
deriving Repr

/-- `isValidPayment`: a parsed received amount at least the order's total.
`received = none` models an empty or unparsable input (`parseFloat` gave
`NaN`, which compares false). -/
def isValidPayment (received : Option ℚ) (o : CashOrder) : Bool :=
  match received with
  | some r => o.total_amount ≤ r
  | none => false

/-- `handlePayment` (`CashPaymentV2.tsx`): reject an insufficient received
amount locally; otherwise mark the order paid/confirmed and insert a cash
`payments` row over the order's total. The change is displayed only, never
persisted. -/
def handlePayment (env : CashEnv) (o : CashOrder) (received : Option ℚ) :
    List CashAction × CashResult :=
  if ¬ isValidPayment received o then ([], .rejected)
  else
    let a1 := CashAction.updateOrderStatus o.id "paid" "confirmed"
    if ¬ env.orderUpdateOk then ([a1], .storeError)
    else
      let a2 := CashAction.insertPayment o.id o.total_amount "cash" "success"
        env.transactionId
      if ¬ env.paymentInsertOk then ([a1, a2], .storeError)
      else ([a1, a2], .succeeded)

/-- Side effects of `processPayment` (`CashierPaymentV2` page), in order: the
`cash_payments` insert runs first, then the order update. The update sets
`payment_status` and `payment_method` only — it never touches `status`. -/
inductive CashierAction where
  | insertCashPayment (orderId : String) (amount received change : ℚ)
      (notes : String)
  | updateOrderPayment (orderId : String) (payment_status payment_method : String)
deriving DecidableEq, Repr

/-- Environment for `processPayment`: whether each write succeeds. -/
structure CashierEnv where
  insertOk : Bool
  updateOk : Bool
deriving Repr

/-- `processPayment` (`CashierPaymentV2` page): reject a received amount
below the payment amount; otherwise insert a `cash_payments` row recording
the change and mark the order paid by cash. -/
def processPayment (env : CashierEnv) (orderId : String)
    (paymentAmount received : ℚ) (notes : String) :
    List CashierAction × CashResult :=
  if received < paymentAmount then ([], .rejected)
  else
    let a1 := CashierAction.insertCashPayment orderId paymentAmount received
      (received - paymentAmount) notes
    if ¬ env.insertOk then ([a1], .storeError)
    else
      let a2 := CashierAction.updateOrderPayment orderId "paid" "cash"
      if ¬ env.updateOk then ([a1, a2], .storeError)
      else ([a1, a2], .succeeded)

/-- The order-status columns a cashier settlement can touch. -/
structure CashierOrderState where
  payment_status : String
  status : String
  payment_method : String
deriving DecidableEq, Repr

/-- Replay of a `processPayment` trace onto an order's status columns. -/
def applyCashierAction (st : CashierOrderState) (a : CashierAction) :
    CashierOrderState :=
  match a with
  | .updateOrderPayment _ ps pm =>
      { st with payment_status := ps, payment_method := pm }
  | .insertCashPayment _ _ _ _ _ => st

/-- Replay of a whole `processPayment` trace. -/
def applyCashierTrace (st : CashierOrderState) (l : List CashierAction) :
    CashierOrderState :=
  l.foldl applyCashierAction st

/-! ## Helper lemmas -/

theorem itemsTotal_nil : itemsTotal [] = 0 := rfl

theorem itemsTotal_cons (x : GatewayItem) (xs : List GatewayItem) :
    itemsTotal (x :: xs) = (x.price : ℚ) * x.quantity + itemsTotal xs := by
  simp [itemsTotal]

/-- A normalized itemization whose effective quantities are all integers has
an integer total: every price was rounded to an integer and an integer
linear combination of integers is an integer. -/
theorem itemsTotal_normalize_int (items : List RawItem)
    (h : ∀ it ∈ items, ∃ z : ℤ, effQuantity it = (z : ℚ)) (i : ℕ) :
    ∃ Z : ℤ, itemsTotal (normalizeItems i items) = (Z : ℚ) := by
  induction items generalizing i with
  | nil => exact ⟨0, by simp [normalizeItems, itemsTotal]⟩
  | cons it rest ih =>
    obtain ⟨z, hz⟩ := h it (by simp)
    obtain ⟨Z, hZ⟩ := ih (fun x hx => h x (by simp [hx])) (i + 1)
    refine ⟨jsRound (effPrice it) * z + Z, ?_⟩
    rw [normalizeItems, itemsTotal_cons, hZ]
    show (jsRound (effPrice it) : ℚ) * effQuantity it + (Z : ℚ) = _
    rw [hz]
    push_cast
    ring

/-! ## Claim C5 -/

/-- C5: a `create-payment` request with a missing or empty `orderId`, or a
missing, zero or negative `amount`, is answered with a descriptive error
and performs no store write and no gateway call. -/
theorem C5_validation_before_side_effect (env : ServeEnv)
    (req : CreatePaymentRequest)
    (h : req.orderId = none ∨ req.orderId = some "" ∨ req.amount = none ∨
      ∃ a : ℚ, req.amount = some a ∧ a ≤ 0) :
    (serve env req).1 = [] ∧
      ((serve env req).2 = .failure "Order ID is required" ∨
       (serve env req).2 = .failure "Valid amount is required") := by
  obtain ⟨oid, amt, items, batch⟩ := req
  rcases oid with _ | s
  · simp [serve]
  · rcases amt with _ | a
    · by_cases hs : s = "" <;> simp [serve, hs]
    · simp only at h
      rcases h with h | h | h | ⟨a', ha', hle⟩
      · exact absurd h (by simp)
      · injection h with h
        subst h
        simp [serve]
      · exact absurd h (by simp)
      · injection ha' with ha'
        subst ha'
        by_cases hs : s = "" <;> simp [serve, hs, hle]

/-- Witness for C5 at a concrete invalid request: the `orderId` is absent,
so nothing is written and no gateway call happens. -/
theorem C5_validation_before_side_effect_witness :
    (({ orderId := none, amount := some 50000, itemDetails := [],
        batchOrderIds := [] } : CreatePaymentRequest).orderId = none) ∧
    ((serve ⟨true, true, true, some "TOK"⟩
        { orderId := none, amount := some 50000, itemDetails := [],
          batchOrderIds := [] }).1 = [] ∧
      ((serve ⟨true, true, true, some "TOK"⟩
          { orderId := none, amount := some 50000, itemDetails := [],
            batchOrderIds := [] }).2 = .failure "Order ID is required" ∨
       (serve ⟨true, true, true, some "TOK"⟩
          { orderId := none, amount := some 50000, itemDetails := [],
            batchOrderIds := [] }).2 = .failure "Valid amount is required")) :=
  ⟨rfl, C5_validation_before_side_effect _ _ (Or.inl rfl)⟩

/-! ## Claim C6 -/

/-- C6: on a validated batch request, with the reconciliation store
configured the handler inserts one `batch_orders` row per batched order id
before the gateway call; a failed insert fails the whole request with no
gateway call; a missing store configuration is only logged and the gateway
is still called, without batch tracking. -/
theorem C6_batch_rows_before_gateway (env : ServeEnv) (s : String) (a : ℚ)
    (items : List RawItem) (batch : List String)
    (hs : s ≠ "") (ha : 0 < a) (hkey : env.serverKey = true)
    (hb : batch ≠ []) :
    (env.supabaseConfig = true → env.batchInsertOk = true →
        (serve env ⟨some s, some a, items, batch⟩).1 =
          [.insertBatch (batch.map (fun oid =>
             ({ batch_id := s, order_id := oid } : BatchRow))),
           .callGateway (buildPayload s a items batch)]) ∧
    (env.supabaseConfig = true → env.batchInsertOk = false →
        (serve env ⟨some s, some a, items, batch⟩).1 =
          [.insertBatch (batch.map (fun oid =>
             ({ batch_id := s, order_id := oid } : BatchRow)))] ∧
        (serve env ⟨some s, some a, items, batch⟩).2 =
          .failure "Database error: Failed to save batch mapping") ∧
    (env.supabaseConfig = false →
        (serve env ⟨some s, some a, items, batch⟩).1 =
          [.callGateway (buildPayload s a items batch)]) := by
  have ha' : ¬ a ≤ 0 := not_le.mpr ha
  refine ⟨?_, ?_, ?_⟩
  · intro hcfg hok
    rcases htok : env.gatewayToken with _ | t <;>
      simp [serve, hs, ha', hkey, hb, hcfg, hok, htok]
  · intro hcfg hok
    simp [serve, hs, ha', hkey, hb, hcfg, hok]
  · intro hcfg
    rcases htok : env.gatewayToken with _ | t <;>
      simp [serve, hs, ha', hkey, hb, hcfg, htok]

/-- Witness for C6 at a concrete batch request over two orders with every
external call succeeding: the row insert precedes the gateway call. -/
theorem C6_batch_rows_before_gateway_witness :
    ("BATCH-1" : String) ≠ "" ∧ (0 : ℚ) < 60000 ∧ (["A", "B"] : List String) ≠ [] ∧
    (serve ⟨true, true, true, some "TOK"⟩
        ⟨some "BATCH-1", some 60000, [], ["A", "B"]⟩).1 =
      [.insertBatch [{ batch_id := "BATCH-1", order_id := "A" },
                     { batch_id := "BATCH-1", order_id := "B" }],
       .callGateway (buildPayload "BATCH-1" 60000 [] ["A", "B"])] := by
  refine ⟨by decide, by norm_num, by decide, ?_⟩
  have h := (C6_batch_rows_before_gateway ⟨true, true, true, some "TOK"⟩
    "BATCH-1" 60000 [] ["A", "B"] (by decide) (by norm_num) rfl
    (by decide)).1 rfl rfl
  simpa using h

/-! ## Claim C10 -/

/-- C10: a validated request without an itemization yields a payload whose
`item_details` is exactly one line item: id the `orderId`, price the
rounded amount, quantity 1, named for the batch size; the gross amount is
the same rounded amount. -/
theorem C10_default_single_item (orderId : String) (amount : ℚ)
    (batch : List String) (_h1 : orderId ≠ "") (_h2 : 0 < amount) :
    (buildPayload orderId amount [] batch).item_details =
      [{ id := orderId, price := jsRound amount, quantity := 1,
         name := if batch.length > 1 then
             "Batch Payment (" ++ toString batch.length ++ " orders)"
           else "Payment" }] ∧
    (buildPayload orderId amount [] batch).transaction_details.gross_amount =
      jsRound amount ∧
    (buildPayload orderId amount [] batch).transaction_details.order_id =
      orderId := by
  refine ⟨?_, rfl, rfl⟩
  simp [buildPayload, finalItemDetails, summaryItem]

/-- Witness for C10 at a concrete un-itemized three-order batch request. -/
theorem C10_default_single_item_witness :
    ("BATCH-9" : String) ≠ "" ∧ (0 : ℚ) < 60000 ∧
    (buildPayload "BATCH-9" 60000 [] ["A", "B", "C"]).item_details =
      [{ id := "BATCH-9", price := 60000, quantity := 1,
         name := "Batch Payment (3 orders)" }] ∧
    (buildPayload "BATCH-9" 60000 [] ["A", "B", "C"]).transaction_details =
      { order_id := "BATCH-9", gross_amount := 60000 } := by
  refine ⟨by decide, by norm_num, ?_, ?_⟩
  · have h := (C10_default_single_item "BATCH-9" 60000 ["A", "B", "C"]
      (by decide) (by norm_num)).1
    rw [h]
    norm_num [jsRound]
    rfl
  · simp [buildPayload]
    norm_num [jsRound]

/-! ## Claim C1 -/

theorem finalItemDetails_of_empty (orderId : String) (amount : ℚ)
    (batch : List String) :
    finalItemDetails orderId amount [] batch =
      [summaryItem orderId amount batch] := rfl

theorem finalItemDetails_of_mismatch (orderId : String) (amount : ℚ)
    (items : List RawItem) (batch : List String) (h : items ≠ [])
    (hm : itemsTotal (normalizeItems 0 items) ≠ amount) :
    finalItemDetails orderId amount items batch =
      [summaryItem orderId amount batch] := by
  simp [finalItemDetails, h, hm]

theorem finalItemDetails_of_match (orderId : String) (amount : ℚ)
    (items : List RawItem) (batch : List String) (h : items ≠ [])
    (hm : itemsTotal (normalizeItems 0 items) = amount) :
    finalItemDetails orderId amount items batch = normalizeItems 0 items := by
  simp [finalItemDetails, h, hm]

theorem itemsTotal_summary (orderId : String) (amount : ℚ)
    (batch : List String) :
    itemsTotal [summaryItem orderId amount batch] = (jsRound amount : ℚ) := by
  simp [itemsTotal, summaryItem]

theorem buildPayload_gross (orderId : String) (amount : ℚ)
    (items : List RawItem) (batch : List String) :
    (buildPayload orderId amount items batch).transaction_details.gross_amount
      = jsRound amount := rfl

theorem buildPayload_items (orderId : String) (amount : ℚ)
    (items : List RawItem) (batch : List String) :
    (buildPayload orderId amount items batch).item_details =
      finalItemDetails orderId amount items batch := rfl

/-- C1 (amended): for a validated request whose effective item quantities
are integers, the item total of the payload equals its gross amount, the
gross amount is the rounded request amount, and a non-reconciling supplied
itemization is replaced by the single summary item. -/
theorem C1_amount_reconciliation (orderId : String) (amount : ℚ)
    (items : List RawItem) (batch : List String)
    (_hoid : orderId ≠ "") (_hamt : 0 < amount)
    (hint : ∀ it ∈ items, ∃ z : ℤ, effQuantity it = (z : ℚ)) :
    itemsTotal (buildPayload orderId amount items batch).item_details =
      ((buildPayload orderId amount items batch).transaction_details.gross_amount : ℚ) ∧
    (buildPayload orderId amount items batch).transaction_details.gross_amount =
      jsRound amount ∧
    (items ≠ [] → itemsTotal (normalizeItems 0 items) ≠ amount →
      (buildPayload orderId amount items batch).item_details =
        [summaryItem orderId amount batch]) := by
  refine ⟨?_, buildPayload_gross orderId amount items batch, ?_⟩
  · rw [buildPayload_items, buildPayload_gross]
    by_cases hempty : items = []
    · subst hempty
      rw [finalItemDetails_of_empty, itemsTotal_summary]
    · by_cases hm : itemsTotal (normalizeItems 0 items) = amount
      · rw [finalItemDetails_of_match orderId amount items batch hempty hm, hm]
        obtain ⟨Z, hZ⟩ := itemsTotal_normalize_int items hint 0
        rw [hm] at hZ
        rw [hZ, jsRound_intCast]
      · rw [finalItemDetails_of_mismatch orderId amount items batch hempty hm,
          itemsTotal_summary]
  · intro hempty hm
    rw [buildPayload_items,
      finalItemDetails_of_mismatch orderId amount items batch hempty hm]

/-- Witness for C1 at the two-line cart of end-to-end scenario 1
(`15000 × 2` and `20000 × 1`, amount `50000`): the payload's item total
equals its gross amount. -/
theorem C1_amount_reconciliation_witness :
    (0 : ℚ) < 50000 ∧
    itemsTotal (buildPayload "ORDER-1" 50000
        [⟨some "m1", some 15000, some 2, some "Nasi Goreng"⟩,
         ⟨some "m2", some 20000, some 1, some "Es Teh"⟩] []).item_details =
      ((buildPayload "ORDER-1" 50000
        [⟨some "m1", some 15000, some 2, some "Nasi Goreng"⟩,
         ⟨some "m2", some 20000, some 1, some "Es Teh"⟩]
          []).transaction_details.gross_amount : ℚ) := by
  refine ⟨by norm_num, ?_⟩
  refine (C1_amount_reconciliation "ORDER-1" 50000
    [⟨some "m1", some 15000, some 2, some "Nasi Goreng"⟩,
     ⟨some "m2", some 20000, some 1, some "Es Teh"⟩] []
    (by decide) (by norm_num) ?_).1
  intro it hit
  simp only [List.mem_cons, List.not_mem_nil, or_false] at hit
  rcases hit with rfl | rfl
  · exact ⟨2, by norm_num [effQuantity]⟩
  · exact ⟨1, by norm_num [effQuantity]⟩

/-- Counterexample to C1 as stated: the handler accepts fractional
quantities, and `amount = 5/2` with one item of normalized price `5` and
quantity `1/2` passes the unrounded reconciliation check, so the payload's
items sum to `5/2` while its gross amount is `round(5/2) = 3`. -/
theorem C1_counterexample :
    (0 : ℚ) < 5 / 2 ∧
    itemsTotal (buildPayload "ORD" (5 / 2)
        [⟨some "i1", some 5, some (1 / 2), some "Half"⟩] []).item_details ≠
      ((buildPayload "ORD" (5 / 2)
        [⟨some "i1", some 5, some (1 / 2), some "Half"⟩]
          []).transaction_details.gross_amount : ℚ) := by
  refine ⟨by norm_num, ?_⟩
  have hm : itemsTotal (normalizeItems 0
      [⟨some "i1", some 5, some (1 / 2), some "Half"⟩]) = 5 / 2 := by
    simp only [normalizeItems, normalizeItem, itemsTotal, List.map_cons,
      List.map_nil, List.sum_cons, List.sum_nil, effPrice, effQuantity]
    norm_num [jsRound]
  rw [buildPayload_items, buildPayload_gross,
    finalItemDetails_of_match _ _ _ _ (by simp) hm, hm]
  norm_num [jsRound]

/-! ## Claim C2 -/

/-- C2 (amended): for a non-empty supplied itemization, the single summary
item is substituted exactly when the normalized item total differs from the
raw `amount` (not from the rounded amount); the substituted item's price is
the rounded amount and its name reflects the batch size. -/
theorem C2_substitution_condition (orderId : String) (amount : ℚ)
    (items : List RawItem) (batch : List String) (h : items ≠ []) :
    (itemsTotal (normalizeItems 0 items) ≠ amount →
      finalItemDetails orderId amount items batch =
        [{ id := orderId, price := jsRound amount, quantity := 1,
           name := if batch.length > 1 then
               "Batch Payment (" ++ toString batch.length ++ " orders)"
             else "Payment" }]) ∧
    (itemsTotal (normalizeItems 0 items) = amount →
      finalItemDetails orderId amount items batch = normalizeItems 0 items) := by
  constructor
  · intro hm
    exact finalItemDetails_of_mismatch orderId amount items batch h hm
  · intro hm
    exact finalItemDetails_of_match orderId amount items batch h hm

/-- Witness for C2: an itemization of one `100 × 1` line against
`amount = 250` does not reconcile, so the summary item (price `250`,
name `"Payment"`) is substituted. -/
theorem C2_substitution_condition_witness :
    ([⟨some "i1", some 100, some 1, some "X"⟩] : List RawItem) ≠ [] ∧
    finalItemDetails "ORD" 250 [⟨some "i1", some 100, some 1, some "X"⟩] [] =
      [{ id := "ORD", price := jsRound 250, quantity := 1, name := "Payment" }] := by
  refine ⟨by decide, ?_⟩
  have hm : itemsTotal (normalizeItems 0
      [⟨some "i1", some 100, some 1, some "X"⟩]) ≠ 250 := by
    simp only [normalizeItems, normalizeItem, itemsTotal, List.map_cons,
      List.map_nil, List.sum_cons, List.sum_nil, effPrice, effQuantity]
    norm_num [jsRound]
  have h := (C2_substitution_condition "ORD" 250
    [⟨some "i1", some 100, some 1, some "X"⟩] [] (by decide)).1 hm
  simpa using h

/-- Counterexample to C2 as stated: at `amount = 502/5` (i.e. `100.4`) with
one normalized `100 × 1` line, the normalized total `100` equals the
rounded amount `round(100.4) = 100`, yet the handler still substitutes the
summary item, because it compares against the raw unrounded amount. -/
theorem C2_counterexample :
    itemsTotal (normalizeItems 0
        [⟨some "i1", some 100, some 1, some "X"⟩]) =
      ((jsRound (502 / 5) : ℤ) : ℚ) ∧
    finalItemDetails "ORD" (502 / 5)
        [⟨some "i1", some 100, some 1, some "X"⟩] [] =
      [{ id := "ORD", price := jsRound (502 / 5), quantity := 1,
         name := "Payment" }] ∧
    finalItemDetails "ORD" (502 / 5)
        [⟨some "i1", some 100, some 1, some "X"⟩] [] ≠
      normalizeItems 0 [⟨some "i1", some 100, some 1, some "X"⟩] := by
  have htot : itemsTotal (normalizeItems 0
      [⟨some "i1", some 100, some 1, some "X"⟩]) = 100 := by
    simp only [normalizeItems, normalizeItem, itemsTotal, List.map_cons,
      List.map_nil, List.sum_cons, List.sum_nil, effPrice, effQuantity]
    norm_num [jsRound]
  have hm : itemsTotal (normalizeItems 0
      [⟨some "i1", some 100, some 1, some "X"⟩]) ≠ 502 / 5 := by
    rw [htot]; norm_num
  have hsub := finalItemDetails_of_mismatch "ORD" (502 / 5)
    [⟨some "i1", some 100, some 1, some "X"⟩] [] (by decide) hm
  refine ⟨by rw [htot]; norm_num [jsRound], by simpa [summaryItem] using hsub, ?_⟩
  rw [hsub]
  simp only [normalizeItems, normalizeItem, List.cons.injEq, and_imp,
    summaryItem, normId, normName, jsOrStr]
  intro hid
  simp at hid

/-! ## Claim C7 -/

/-- C7 (amended): the batch aggregator filters the selection to pending
orders. An empty selection is an error-styled no-op and a non-empty
selection with no pending order an informational no-op, both with no
gateway call and no writes; otherwise `create-payment` is called exactly
once, with the summed pending amounts, the synthetic batch id, and the
pending orders' ids as `batchOrderIds`. -/
theorem C7_batch_aggregation (env : BatchEnv) (batchOrderId : String)
    (orders : List Order) :
    (orders = [] →
      processBatchPayment env batchOrderId orders =
        (.emptySelectionError, [], [])) ∧
    (orders ≠ [] →
      orders.filter (fun o => o.payment_status = "pending") = [] →
      processBatchPayment env batchOrderId orders =
        (.nothingToPayInfo, [], [])) ∧
    (orders.filter (fun o => o.payment_status = "pending") ≠ [] →
      (processBatchPayment env batchOrderId orders).2.1 =
        [{ orderId := some batchOrderId
           amount := some (((orders.filter
               (fun o => o.payment_status = "pending")).map
             (fun o => o.total_amount)).sum)
           itemDetails := batchItemDetails (orders.filter
             (fun o => o.payment_status = "pending"))
           batchOrderIds := (orders.filter
             (fun o => o.payment_status = "pending")).map (fun o => o.id) }]) := by
  refine ⟨?_, ?_, ?_⟩
  · intro h
    simp [processBatchPayment, h]
  · intro h hp
    simp [processBatchPayment, h, hp]
  · intro hp
    have h : orders ≠ [] := by
      intro h
      subst h
      simp at hp
    rcases htok : env.gatewayToken with _ | t
    · simp [processBatchPayment, h, hp, htok]
    · rcases hsnap : env.snapLoaded <;>
        simp [processBatchPayment, h, hp, htok, hsnap]

/-- Witness for C7 at the three pending orders of end-to-end scenario 2
(`10000`, `20000`, `30000`): the gateway function is called once with
amount `60000`, the synthetic batch id and the three order ids. -/
theorem C7_batch_aggregation_witness :
    (([⟨"A", "pending", 10000, "Ana", none, none, []⟩,
       ⟨"B", "pending", 20000, "Ben", none, none, []⟩,
       ⟨"C", "pending", 30000, "Cia", none, none, []⟩] : List Order).filter
        (fun o => o.payment_status = "pending") ≠ []) ∧
    (processBatchPayment ⟨some "TOK", fun _ => true, true⟩ "BATCH-1"
        [⟨"A", "pending", 10000, "Ana", none, none, []⟩,
         ⟨"B", "pending", 20000, "Ben", none, none, []⟩,
         ⟨"C", "pending", 30000, "Cia", none, none, []⟩]).2.1 =
      [{ orderId := some "BATCH-1", amount := some 60000, itemDetails := [],
         batchOrderIds := ["A", "B", "C"] }] := by
  constructor
  · simp [Order.payment_status]
  · have h := (C7_batch_aggregation ⟨some "TOK", fun _ => true, true⟩ "BATCH-1"
      [⟨"A", "pending", 10000, "Ana", none, none, []⟩,
       ⟨"B", "pending", 20000, "Ben", none, none, []⟩,
       ⟨"C", "pending", 30000, "Cia", none, none, []⟩]).2.2
      (by simp [Order.payment_status])
    rw [h]
    simp [batchItemDetails]
    norm_num

/-- Counterexample to C7 as stated: over an empty candidate list no
candidate is pending, yet the aggregator reports the error-variant
"nothing selected" toast, not the informational "nothing to pay" no-op. -/
theorem C7_counterexample :
    (processBatchPayment ⟨none, fun _ => false, false⟩ "BATCH-1" []).1 =
      BatchOutcome.emptySelectionError ∧
    (processBatchPayment ⟨none, fun _ => false, false⟩ "BATCH-1" []).1 ≠
      BatchOutcome.nothingToPayInfo := by
  constructor
  · rfl
  · intro h
    simp [processBatchPayment] at h

/-! ## Claim C3 -/

theorem updateLoop_mem (writeOk : String → Bool) (token batchId : String)
    (l : List Order) (o : Order) (ho : o ∈ l) :
    (({ order_id := o.id, snap_token := token,
        midtrans_order_id := batchId } : OrderWrite),
      writeOk o.id) ∈ updateLoop writeOk token batchId l := by
  induction l with
  | nil => cases ho
  | cons x rest ih =>
    rcases List.mem_cons.mp ho with rfl | h
    · exact List.mem_cons_self _ _
    · exact List.mem_cons_of_mem _ (ih h)

theorem updateLoop_pair (writeOk : String → Bool) (token batchId : String)
    (l : List Order) (e : OrderWrite × Bool)
    (he : e ∈ updateLoop writeOk token batchId l) :
    e.1.snap_token = token ∧ e.1.midtrans_order_id = batchId := by
  induction l with
  | nil => cases he
  | cons x rest ih =>
    rcases List.mem_cons.mp he with rfl | h
    · exact ⟨rfl, rfl⟩
    · exact ih h

theorem appliedWrites_mem (l : List (OrderWrite × Bool)) (w : OrderWrite)
    (h : (w, true) ∈ l) : w ∈ appliedWrites l := by
  unfold appliedWrites
  refine List.mem_map.mpr ⟨(w, true), ?_, rfl⟩
  exact List.mem_filter.mpr ⟨h, rfl⟩

theorem appliedWrites_sub (l : List (OrderWrite × Bool)) (w : OrderWrite)
    (h : w ∈ appliedWrites l) : ∃ b, (w, b) ∈ l := by
  unfold appliedWrites at h
  obtain ⟨e, he, rfl⟩ := List.mem_map.mp h
  exact ⟨e.2, (List.mem_filter.mp he).1⟩

/-- In a duplicate-free batch, each order id gets exactly one
`batch_orders` row. -/
theorem countP_rows_one (b oid : String) (l : List String) (hnd : l.Nodup)
    (hmem : oid ∈ l) :
    (l.map (fun x => ({ batch_id := b, order_id := x } : BatchRow))).countP
      (fun r => r.order_id = oid) = 1 := by
  induction l with
  | nil => cases hmem
  | cons x rest ih =>
    simp only [List.map_cons, List.countP_cons]
    rcases List.mem_cons.mp hmem with rfl | h
    · have hnotin : oid ∉ rest := (List.nodup_cons.mp hnd).1
      have hz : (rest.map (fun x =>
          ({ batch_id := b, order_id := x } : BatchRow))).countP
          (fun r => r.order_id = oid) = 0 := by
        rw [List.countP_eq_zero]
        intro r hr
        obtain ⟨y, hy, rfl⟩ := List.mem_map.mp hr
        simp only [decide_eq_true_eq]
        intro hEq
        exact hnotin (hEq ▸ hy)
      simp [hz]
    · have hx : x ≠ oid := by
        intro hEq
        exact (List.nodup_cons.mp hnd).1 (hEq ▸ h)
      rw [ih (List.nodup_cons.mp hnd).2 h]
      simp [hx]

/-- C3: after a successful batch call with token `t`, the fan-out loop
attempts one update per pending order, all carrying the identical
`(snap_token, midtrans_order_id)` pair; an order's update reaches the store
exactly according to its own write flag, independent of the other orders;
and the gateway function inserted the `batch_orders` rows — one per order
id when the ids are duplicate-free — before any gateway call. -/
theorem C3_batch_fanout (env : BatchEnv) (senv : ServeEnv)
    (batchOrderId : String) (orders : List Order) (t : String)
    (htok : env.gatewayToken = some t)
    (hpend : orders.filter (fun o => o.payment_status = "pending") ≠ []) :
    (∀ o ∈ orders.filter (fun o => o.payment_status = "pending"),
      (({ order_id := o.id, snap_token := t,
          midtrans_order_id := batchOrderId } : OrderWrite),
        env.writeOk o.id) ∈ (processBatchPayment env batchOrderId orders).2.2) ∧
    (∀ w ∈ appliedWrites (processBatchPayment env batchOrderId orders).2.2,
      w.snap_token = t ∧ w.midtrans_order_id = batchOrderId) ∧
    (∀ o ∈ orders.filter (fun o => o.payment_status = "pending"),
      env.writeOk o.id = true →
      ({ order_id := o.id, snap_token := t,
         midtrans_order_id := batchOrderId } : OrderWrite) ∈
        appliedWrites (processBatchPayment env batchOrderId orders).2.2) ∧
    (senv.serverKey = true → senv.supabaseConfig = true →
      senv.batchInsertOk = true → batchOrderId ≠ "" →
      ∀ body ∈ (processBatchPayment env batchOrderId orders).2.1,
      ∀ a : ℚ, body.amount = some a → 0 < a →
      body.batchOrderIds = (orders.filter
          (fun o => o.payment_status = "pending")).map (fun o => o.id) ∧
      (serve senv body).1.head? = some (.insertBatch
        (body.batchOrderIds.map (fun x =>
          ({ batch_id := batchOrderId, order_id := x } : BatchRow)))) ∧
      (body.batchOrderIds.Nodup →
        ∀ oid ∈ body.batchOrderIds,
        (body.batchOrderIds.map (fun x =>
          ({ batch_id := batchOrderId, order_id := x } : BatchRow))).countP
          (fun r => r.order_id = oid) = 1)) := by
  have h : orders ≠ [] := by
    intro h
    subst h
    simp at hpend
  have hw : (processBatchPayment env batchOrderId orders).2.2 =
      updateLoop env.writeOk t batchOrderId
        (orders.filter (fun o => o.payment_status = "pending")) := by
    rcases hsnap : env.snapLoaded <;>
      simp [processBatchPayment, h, hpend, htok, hsnap]
  have hc : (processBatchPayment env batchOrderId orders).2.1 =
      [{ orderId := some batchOrderId
         amount := some (((orders.filter
             (fun o => o.payment_status = "pending")).map
           (fun o => o.total_amount)).sum)
         itemDetails := batchItemDetails (orders.filter
           (fun o => o.payment_status = "pending"))
         batchOrderIds := (orders.filter
           (fun o => o.payment_status = "pending")).map (fun o => o.id) }] := by
    rcases hsnap : env.snapLoaded <;>
      simp [processBatchPayment, h, hpend, htok, hsnap]
  refine ⟨?_, ?_, ?_, ?_⟩
  · intro o ho
    rw [hw]
    exact updateLoop_mem env.writeOk t batchOrderId _ o ho
  · intro w hwmem
    rw [hw] at hwmem
    obtain ⟨b, hb⟩ := appliedWrites_sub _ _ hwmem
    exact updateLoop_pair env.writeOk t batchOrderId _ (w, b) hb
  · intro o ho hok
    rw [hw]
    refine appliedWrites_mem _ _ ?_
    have := updateLoop_mem env.writeOk t batchOrderId
      (orders.filter (fun o => o.payment_status = "pending")) o ho
    rwa [hok] at this
  · intro hkey hcfg hins hbid body hbody a hamt hapos
    rw [hc] at hbody
    simp only [List.mem_singleton] at hbody
    subst hbody
    simp only at hamt
    injection hamt with hamt
    subst hamt
    have hids : (orders.filter
        (fun o => o.payment_status = "pending")).map (fun o => o.id) ≠ [] := by
      simpa using hpend
    refine ⟨rfl, ?_, ?_⟩
    · have hle : ¬ (((orders.filter
          (fun o => o.payment_status = "pending")).map
            (fun o => o.total_amount)).sum ≤ 0) := not_le.mpr hapos
      rcases hg : senv.gatewayToken with _ | tk <;>
        simp [serve, hbid, hle, hkey, hcfg, hins, hids, hg]
    · intro hnd oid hoid
      exact countP_rows_one batchOrderId oid _ hnd hoid

/-- Witness for C3 over pending orders `A`, `B`, `C` with the write on `B`
failing: all three updates are attempted with the identical pair, `A` and
`C` still reach the store, and the gateway function's first action is the
three-row `batch_orders` insert. -/
theorem C3_batch_fanout_witness :
    (([⟨"A", "pending", 10000, "Ana", none, none, []⟩,
       ⟨"B", "pending", 20000, "Ben", none, none, []⟩,
       ⟨"C", "pending", 30000, "Cia", none, none, []⟩] : List Order).filter
        (fun o => o.payment_status = "pending") ≠ []) ∧
    (({ order_id := "B", snap_token := "TOK",
        midtrans_order_id := "BATCH-1" } : OrderWrite), false) ∈
      (processBatchPayment ⟨some "TOK", fun i => i ≠ "B", true⟩ "BATCH-1"
        [⟨"A", "pending", 10000, "Ana", none, none, []⟩,
         ⟨"B", "pending", 20000, "Ben", none, none, []⟩,
         ⟨"C", "pending", 30000, "Cia", none, none, []⟩]).2.2 ∧
    ({ order_id := "A", snap_token := "TOK",
       midtrans_order_id := "BATCH-1" } : OrderWrite) ∈
      appliedWrites (processBatchPayment ⟨some "TOK", fun i => i ≠ "B", true⟩
        "BATCH-1"
        [⟨"A", "pending", 10000, "Ana", none, none, []⟩,
         ⟨"B", "pending", 20000, "Ben", none, none, []⟩,
         ⟨"C", "pending", 30000, "Cia", none, none, []⟩]).2.2 ∧
    ({ order_id := "C", snap_token := "TOK",
       midtrans_order_id := "BATCH-1" } : OrderWrite) ∈
      appliedWrites (processBatchPayment ⟨some "TOK", fun i => i ≠ "B", true⟩
        "BATCH-1"
        [⟨"A", "pending", 10000, "Ana", none, none, []⟩,
         ⟨"B", "pending", 20000, "Ben", none, none, []⟩,
         ⟨"C", "pending", 30000, "Cia", none, none, []⟩]).2.2 := by
  have h := C3_batch_fanout ⟨some "TOK", fun i => i ≠ "B", true⟩
    ⟨true, true, true, some "TOK"⟩ "BATCH-1"
    [⟨"A", "pending", 10000, "Ana", none, none, []⟩,
     ⟨"B", "pending", 20000, "Ben", none, none, []⟩,
     ⟨"C", "pending", 30000, "Cia", none, none, []⟩] "TOK" rfl
    (by simp [Order.payment_status])
  refine ⟨by simp [Order.payment_status], ?_, ?_, ?_⟩
  · have hb := h.1 ⟨"B", "pending", 20000, "Ben", none, none, []⟩
      (by simp [Order.payment_status])
    simpa using hb
  · exact h.2.2.1 ⟨"A", "pending", 10000, "Ana", none, none, []⟩
      (by simp [Order.payment_status]) (by decide)
  · exact h.2.2.1 ⟨"C", "pending", 30000, "Cia", none, none, []⟩
      (by simp [Order.payment_status]) (by decide)

/-! ## Claim C4 -/

/-- C4 (amended): retrying payment on an order whose cached `snap_token` is
non-null and non-empty (JS-truthy) never calls the gateway function and,
when the widget script is loaded, opens the widget with the cached token
and does nothing else. Only on a falsy token is the gateway called — then
exactly once — generating and persisting a `midtrans_order_id` first when
none is present. -/
theorem C4_cached_token_reuse (env : RetryEnv) (o : Order) :
    (∀ s : String, o.snap_token = some s → s ≠ "" →
      ((retryPayment env o).1.countP isGatewayCall = 0 ∧
       (env.snapLoaded = true →
         (retryPayment env o).1 = [.openWidget s]))) ∧
    (jsTruthyStr o.snap_token = false → env.persistMidtransOk = true →
      ((retryPayment env o).1.countP isGatewayCall = 1 ∧
       (jsTruthyStr o.midtrans_order_id = false →
         (retryPayment env o).1.head? =
           some (.persistMidtransId o.id env.freshOrderId)))) := by
  constructor
  · intro s hs hne
    have ht : jsTruthyStr o.snap_token = true := by simp [jsTruthyStr, hs, hne]
    constructor
    · rcases hsnap : env.snapLoaded <;>
        simp [retryPayment, ht, hsnap, isGatewayCall]
    · intro hsnap
      simp [retryPayment, ht, hsnap, hs, jsTruthyStr, hne]
  · intro hf hok
    constructor
    · rcases hmid : jsTruthyStr o.midtrans_order_id <;>
        rcases hg : env.gatewayToken with _ | tk <;>
        rcases hsnap : env.snapLoaded <;>
        simp [retryPayment, hf, hok, hmid, hg, hsnap, isGatewayCall]
    · intro hmid
      rcases hg : env.gatewayToken with _ | tk <;>
        rcases hsnap : env.snapLoaded <;>
        simp [retryPayment, hf, hok, hmid, hg, hsnap]

/-- Witness for C4 on an order with a cached non-empty token: the widget
opens with the cached token and the gateway function is never called. -/
theorem C4_cached_token_reuse_witness :
    (some "TOK-CACHED" : Option String) = some "TOK-CACHED" ∧
    ("TOK-CACHED" : String) ≠ "" ∧
    (retryPayment ⟨"ORDER-NEW", true, some "TOK-FRESH", true⟩
        ⟨"row1", "pending", 50000, "Ana", some "TOK-CACHED", some "MID-1",
         []⟩).1.countP isGatewayCall = 0 ∧
    (retryPayment ⟨"ORDER-NEW", true, some "TOK-FRESH", true⟩
        ⟨"row1", "pending", 50000, "Ana", some "TOK-CACHED", some "MID-1",
         []⟩).1 = [.openWidget "TOK-CACHED"] := by
  have h := (C4_cached_token_reuse ⟨"ORDER-NEW", true, some "TOK-FRESH", true⟩
    ⟨"row1", "pending", 50000, "Ana", some "TOK-CACHED", some "MID-1", []⟩).1
    "TOK-CACHED" rfl (by decide)
  exact ⟨rfl, by decide, h.1, h.2 rfl⟩

/-- Counterexample to C4 as stated: an order whose cached `snap_token` is
the non-null empty string is sent down the fresh-token path — the gateway
function is called although a non-null token exists, because the code tests
JS truthiness, not nullness. -/
theorem C4_counterexample :
    (⟨"row1", "pending", 50000, "Ana", some "", some "MID-1", []⟩ :
        Order).snap_token ≠ none ∧
    (retryPayment ⟨"ORDER-NEW", true, some "TOK-FRESH", true⟩
        ⟨"row1", "pending", 50000, "Ana", some "", some "MID-1",
         []⟩).1.countP isGatewayCall = 1 := by
  constructor
  · simp
  · simp [retryPayment, jsTruthyStr, isGatewayCall]

/-! ## Claim C8 -/

/-- C8: when the order row was created but the line-item insert fails,
checkout issues exactly the compensating delete of the created order and
fails with an error, and the created order is no longer in the store after
the trace is replayed. -/
theorem C8_checkout_rollback (env : CheckoutEnv) (selectedChildId : String)
    (children : List Child) (cartItems : List CartItem)
    (huser : env.userPresent = true) (hcart : cartItems ≠ [])
    (cid : String) (hcid : childIdToUse selectedChildId cartItems = some cid)
    (c : Child) (hc : resolveChild cid children cartItems = some c)
    (hins : env.orderInsertOk = true) (hfail : env.lineItemsInsertOk = false) :
    (handleCheckout env selectedChildId children cartItems).1 =
      [.insertOrder env.orderRowId env.orderNumber
         ((cartItems.map (fun it => it.price * it.quantity)).sum),
       .insertLineItems (checkoutLineItems env.orderRowId cid c cartItems),
       .deleteOrder env.orderRowId] ∧
    (handleCheckout env selectedChildId children cartItems).2 =
      .failed "Gagal menyimpan detail pesanan" ∧
    env.orderRowId ∉
      ordersAfter (handleCheckout env selectedChildId children cartItems).1 := by
  have htrace : (handleCheckout env selectedChildId children cartItems).1 =
      [.insertOrder env.orderRowId env.orderNumber
         ((cartItems.map (fun it => it.price * it.quantity)).sum),
       .insertLineItems (checkoutLineItems env.orderRowId cid c cartItems),
       .deleteOrder env.orderRowId] := by
    simp [handleCheckout, huser, hcart, hcid, hc, hins, hfail]
  refine ⟨htrace, ?_, ?_⟩
  · simp [handleCheckout, huser, hcart, hcid, hc, hins, hfail]
  · rw [htrace]
    simp [ordersAfter]

/-- Witness for C8 at a one-item cart whose line-item insert fails: the
delete of the created order follows and the store keeps no orphan. -/
theorem C8_checkout_rollback_witness :
    childIdToUse "" [⟨"c1", "Nasi Goreng", 15000, 2, "m1", some "ch1",
        some "Ana", some "1A"⟩] = some "ch1" ∧
    resolveChild "ch1" [⟨"ch1", "Ana", "1A"⟩]
      [⟨"c1", "Nasi Goreng", 15000, 2, "m1", some "ch1", some "Ana",
        some "1A"⟩] = some ⟨"ch1", "Ana", "1A"⟩ ∧
    (handleCheckout ⟨true, "row9", "ORDER-N1", "MID-N1", true, false, false,
        some "TOK", true⟩ "" [⟨"ch1", "Ana", "1A"⟩]
      [⟨"c1", "Nasi Goreng", 15000, 2, "m1", some "ch1", some "Ana",
        some "1A"⟩]).2 = .failed "Gagal menyimpan detail pesanan" ∧
    "row9" ∉ ordersAfter (handleCheckout ⟨true, "row9", "ORDER-N1", "MID-N1",
        true, false, false, some "TOK", true⟩ "" [⟨"ch1", "Ana", "1A"⟩]
      [⟨"c1", "Nasi Goreng", 15000, 2, "m1", some "ch1", some "Ana",
        some "1A"⟩]).1 := by
  have h := C8_checkout_rollback ⟨true, "row9", "ORDER-N1", "MID-N1", true,
      false, false, some "TOK", true⟩ "" [⟨"ch1", "Ana", "1A"⟩]
    [⟨"c1", "Nasi Goreng", 15000, 2, "m1", some "ch1", some "Ana", some "1A"⟩]
    rfl (by decide) "ch1" (by decide)
    ⟨"ch1", "Ana", "1A"⟩ (by decide) rfl rfl
  exact ⟨by decide, by decide, h.2.1, h.2.2⟩

/-! ## Claim C9 -/

/-- C9 (amended): a received amount below the order total is rejected by
both cashier paths with no write; on success the `CashPaymentV2` path marks
the order paid and confirmed and inserts a cash `payments` row over the
total (change is displayed, not persisted), while the `CashierPaymentV2`
path records the change `received − total` in `cash_payments` and marks the
order paid by cash, leaving its `status` column untouched. -/
theorem C9_cash_settlement (cenv : CashEnv) (penv : CashierEnv)
    (o : CashOrder) (r : ℚ) (notes : String) :
    (r < o.total_amount →
      handlePayment cenv o (some r) = ([], .rejected) ∧
      processPayment penv o.id o.total_amount r notes = ([], .rejected)) ∧
    (o.total_amount ≤ r → cenv.orderUpdateOk = true →
      cenv.paymentInsertOk = true →
      handlePayment cenv o (some r) =
        ([.updateOrderStatus o.id "paid" "confirmed",
          .insertPayment o.id o.total_amount "cash" "success"
            cenv.transactionId], .succeeded)) ∧
    (o.total_amount ≤ r → penv.insertOk = true → penv.updateOk = true →
      processPayment penv o.id o.total_amount r notes =
        ([.insertCashPayment o.id o.total_amount r (r - o.total_amount) notes,
          .updateOrderPayment o.id "paid" "cash"], .succeeded) ∧
      ∀ st : CashierOrderState,
        (applyCashierTrace st
          (processPayment penv o.id o.total_amount r notes).1).status =
          st.status) := by
  refine ⟨?_, ?_, ?_⟩
  · intro hlt
    constructor
    · have : ¬ isValidPayment (some r) o = true := by
        simp [isValidPayment, not_le.mpr hlt]
      simp [handlePayment, this]
    · simp [processPayment, hlt]
  · intro hge hupd hins
    have : isValidPayment (some r) o = true := by simp [isValidPayment, hge]
    simp [handlePayment, this, hupd, hins]
  · intro hge hins hupd
    have hlt : ¬ r < o.total_amount := not_lt.mpr hge
    have htr : processPayment penv o.id o.total_amount r notes =
        ([.insertCashPayment o.id o.total_amount r (r - o.total_amount) notes,
          .updateOrderPayment o.id "paid" "cash"], .succeeded) := by
      simp [processPayment, hlt, hins, hupd]
    refine ⟨htr, ?_⟩
    intro st
    rw [htr]
    simp [applyCashierTrace, applyCashierAction]

/-- Witness for C9 at end-to-end scenario 3: `receivedAmount = 45000`
against a `50000` order is rejected by both paths with no write. -/
theorem C9_cash_settlement_witness :
    (45000 : ℚ) < 50000 ∧
    handlePayment ⟨"CASH-1", true, true⟩ ⟨"o1", 50000⟩ (some 45000) =
      ([], .rejected) ∧
    processPayment ⟨true, true⟩ "o1" 50000 45000 "" = ([], .rejected) := by
  have h := (C9_cash_settlement ⟨"CASH-1", true, true⟩ ⟨true, true⟩
    ⟨"o1", 50000⟩ 45000 "").1 (by norm_num)
  exact ⟨by norm_num, h.1, h.2⟩

/-- Counterexample to C9 as stated: the `CashierPaymentV2` settlement of a
`50000` order with exactly `50000` received succeeds, records the cash
payment, but its order update carries no `status` column — the order's
`status` stays `"pending"` instead of becoming `"confirmed"`. -/
theorem C9_counterexample :
    processPayment ⟨true, true⟩ "o1" 50000 50000 "" =
      ([.insertCashPayment "o1" 50000 50000 0 "",
        .updateOrderPayment "o1" "paid" "cash"], .succeeded) ∧
    (applyCashierTrace ⟨"pending", "pending", ""⟩
        (processPayment ⟨true, true⟩ "o1" 50000 50000 "").1).status ≠
      "confirmed" := by
  have htr : processPayment ⟨true, true⟩ "o1" 50000 50000 "" =
      ([.insertCashPayment "o1" 50000 50000 0 "",
        .updateOrderPayment "o1" "paid" "cash"], .succeeded) := by
    simp [processPayment]
  refine ⟨htr, ?_⟩
  rw [htr]
  simp [applyCashierTrace, applyCashierAction]
